import Mathlib

/-!
Shallow embedding of the Atlas DNS Python SDK
(src/sdk/python/src/atlas_dns/client.py) and proofs about its
request/response/error-mapping pipeline and client facade.

The repository's models.py and exceptions.py are imported by client.py but are
not among the repository files; where a definition depends on them it is
modelled from the specification and says so in its doc comment.
-/

namespace AtlasDNS

/-- A JSON value, as produced by response.json() / consumed as a request body. -/
inductive Json where
  | null
  | bool (b : Bool)
  | num (n : Int)
  | str (s : String)
  | arr (xs : List Json)
  | obj (fields : List (String × Json))
deriving Repr

/-- What BaseClient._handle_response returns on the success branch: the parsed
JSON value, or — when response.json() raises json.JSONDecodeError — the raw
response text. -/
inductive DecodedValue where
  | json (j : Json)
  | text (s : String)
deriving Repr

/-- Modelled from the spec: exceptions.py is not among the repository files;
client.py imports exactly these six exception classes and §7 of the spec lists
them as a closed taxonomy, each carrying a message. -/
inductive TypedError where
  | AtlasDNSException (msg : String)
  | AuthenticationError (msg : String)
  | RateLimitError (msg : String)
  | ResourceNotFoundError (msg : String)
  | ValidationError (msg : String)
  | ServerError (msg : String)
deriving Repr, DecidableEq

/-- A transport-level exception raised by httpx inside client.request, as seen
by the backoff decorator: the two retried classes named in the decorator's
exception tuple, or any other exception. -/
inductive TransportExc where
  | timeoutException
  | connectError
  | otherException (msg : String)
deriving Repr, DecidableEq

/-- What one transport attempt does: return an HTTP response or raise. -/
inductive AttemptResult (ρ : Type) where
  | respond (r : ρ)
  | raiseExc (e : TransportExc)
deriving Repr, DecidableEq

/-- An httpx.Response as the pipeline consumes it: status_code, .text, and the
result of .json() (`none` models json.JSONDecodeError being raised; when
`jsonBody = some j`, `text` is the serialized form of `j` — the pipeline never
compares the two, so the pair is carried as given). -/
structure Response where
  status : Nat
  text : String
  jsonBody : Option Json
deriving Repr

/-- BaseClient._handle_response (client.py lines 62-82): the status-to-error
ladder, then on the success branch the parsed JSON or — on decode failure —
the raw text. Messages reproduce the Python f-strings. -/
def handle_response (r : Response) : Except TypedError DecodedValue :=
  if r.status = 401 then .error (.AuthenticationError "Authentication failed")
  else if r.status = 403 then .error (.AuthenticationError "Permission denied")
  else if r.status = 404 then .error (.ResourceNotFoundError "Resource not found")
  else if r.status = 422 then .error (.ValidationError ("Validation error: " ++ r.text))
  else if r.status = 429 then .error (.RateLimitError "Rate limit exceeded")
  else if r.status ≥ 500 then .error (.ServerError ("Server error: " ++ toString r.status))
  else if r.status ≥ 400 then .error (.AtlasDNSException ("API error: " ++ r.text))
  else
    match r.jsonBody with
    | some j => .ok (.json j)
    | none => .ok (.text r.text)

/-- The exception tuple of the sync decorator
`@backoff.on_exception(backoff.expo, (httpx.TimeoutException, httpx.ConnectError), max_tries=3)`
(client.py lines 106-110): which transport exceptions are retried. -/
def syncRetriedExc : TransportExc → Bool
  | .timeoutException => true
  | .connectError => true
  | .otherException _ => false

/-- The exception tuple of the async decorator on AsyncAtlasDNSClient._request
(client.py lines 466-470), translated separately from its own source lines. -/
def asyncRetriedExc : TransportExc → Bool
  | .timeoutException => true
  | .connectError => true
  | .otherException _ => false

/-- backoff.on_exception semantics: attempt the wrapped call; an exception the
decorator's tuple covers is retried until the number of calls reaches
max_tries, then propagates; any other exception propagates at once; a returned
value is final. `transport i` is the outcome of the (i+1)-th call; `fuel` is
the number of calls still allowed. Returns the outcome and the total number of
calls made. -/
def backoffRun (retried : TransportExc → Bool) (transport : Nat → AttemptResult Response) :
    Nat → Nat → Except TransportExc Response × Nat
  | _, 0 => (.error (.otherException "max_tries is zero"), 0)
  | i, Nat.succ fuel =>
    match transport i with
    | .respond r => (.ok r, i + 1)
    | .raiseExc e =>
      if retried e && fuel != 0 then
        backoffRun retried transport (i + 1) fuel
      else
        (.error e, i + 1)

/-- A backoff decorator's policy: wait generator, retried-exception filter, and
maximum number of calls. -/
structure RetryPolicy where
  waitGen : Nat → Nat
  retried : TransportExc → Bool
  maxTries : Nat

/-- The sync decorator's policy: backoff.expo waits (2 ^ n), the tuple
(httpx.TimeoutException, httpx.ConnectError), max_tries = 3. -/
def syncRequestPolicy : RetryPolicy :=
  { waitGen := fun n => 2 ^ n, retried := syncRetriedExc, maxTries := 3 }

/-- The async decorator's policy (client.py lines 466-470), translated from its
own source lines: backoff.expo waits, the same exception tuple, max_tries = 3. -/
def asyncRequestPolicy : RetryPolicy :=
  { waitGen := fun n => 2 ^ n, retried := asyncRetriedExc, maxTries := 3 }

/-- Python truthiness of `api_key: Optional[str]` in `if api_key:`: None and
the empty string are falsy, every other string is truthy. -/
def optStrTruthy : Option String → Bool
  | none => false
  | some s => s != ""

/-- base_url.rstrip("/"): drop every trailing slash. -/
def rstripSlash (s : String) : String :=
  ⟨(s.data.reverse.dropWhile (· == '/')).reverse⟩

/-- The state BaseClient.__init__ (client.py lines 30-60) leaves on self. -/
structure BaseClientState where
  base_url : String
  api_key : Option String
  timeout : Nat
  max_retries : Nat
  verify_ssl : Bool
  headers : List (String × String)
deriving Repr, DecidableEq

/-- The constructor defaults of BaseClient.__init__. The timeout 30.0 is a
float in the source; no claim computes with it, so it is carried as the
number of seconds. -/
def DEFAULT_BASE_URL : String := "http://localhost:5380"

def DEFAULT_TIMEOUT : Nat := 30

def DEFAULT_MAX_RETRIES : Nat := 3

def DEFAULT_VERIFY_SSL : Bool := true

/-- BaseClient.__init__: store the five configuration fields (base_url with
trailing slashes stripped), build the header mapping, and add X-API-Key
exactly when `if api_key:` is truthy. -/
def base_client_init (base_url : String) (api_key : Option String) (timeout : Nat)
    (max_retries : Nat) (verify_ssl : Bool) : BaseClientState :=
  let headers := [("Content-Type", "application/json"),
                  ("User-Agent", "atlas-dns-python-sdk/1.0.0")]
  { base_url := rstripSlash base_url
    api_key := api_key
    timeout := timeout
    max_retries := max_retries
    verify_ssl := verify_ssl
    headers :=
      match api_key with
      | some k => if k != "" then headers ++ [("X-API-Key", k)] else headers
      | none => headers }

/-- Everything after "://" up to the first "/" of a character list. -/
def takeAuthority : List Char → List Char
  | [] => []
  | c :: cs => if c == '/' then [] else c :: takeAuthority cs

/-- Split a character list at the first "://", if any. -/
def splitSchemeAux : List Char → Option (List Char × List Char)
  | [] => none
  | ':' :: '/' :: '/' :: rest => some ([], rest)
  | c :: cs => (splitSchemeAux cs).map (fun p => (c :: p.1, p.2))

/-- urllib.parse.urljoin for the one call pattern _request uses,
`urljoin(self.base_url, "/api/v2" + path)`: the second argument always starts
with "/", so the result is the base's scheme://authority followed by that
root-relative reference (RFC 3986 merge with an absolute-path reference). -/
def urljoin (base ref : String) : String :=
  (match splitSchemeAux base.data with
   | some (scheme, rest) => ⟨scheme ++ (':' :: '/' :: '/' :: takeAuthority rest)⟩
   | none => (⟨takeAuthority base.data⟩ : String)) ++ ref

/-- The request handed to the transport collaborator: httpx
client.request(method=..., url=..., params=..., json=...). -/
structure HttpRequest where
  method : String
  url : String
  params : Option (List (String × String))
  json_data : Option Json
deriving Repr

/-- How a pipeline call fails: a typed error raised by _handle_response, or a
transport exception that survived the retry decorator. -/
inductive RequestFailure where
  | typed (e : TypedError)
  | transport (e : TransportExc)
deriving Repr

/-- Re-raising of _handle_response's typed errors through _request: the Python
exception simply propagates; in Except form the error is tagged as typed. -/
def liftTyped : Except TypedError DecodedValue → Except RequestFailure DecodedValue
  | .ok v => .ok v
  | .error e => .error (.typed e)

/-- AtlasDNSClient._request (client.py lines 106-126) under its backoff
decorator: build the url from base_url and the /api/v2-prefixed path, attempt
the transport call with the decorator's hard-coded max_tries = 3, and hand a
returned response to _handle_response. `transport i` gives the outcome of the
(i+1)-th attempt for this fixed request. Returns the request issued, the
outcome, and the number of transport attempts made. -/
def sync_request (c : BaseClientState) (transport : Nat → AttemptResult Response)
    (method path : String) (params : Option (List (String × String)))
    (json_data : Option Json) :
    HttpRequest × Except RequestFailure DecodedValue × Nat :=
  let req : HttpRequest :=
    { method := method, url := urljoin c.base_url ("/api/v2" ++ path),
      params := params, json_data := json_data }
  let run := backoffRun syncRetriedExc transport 0 3
  (req,
   (match run.1 with
    | .ok r => liftTyped (handle_response r)
    | .error e => .error (.transport e)),
   run.2)

/-- AsyncAtlasDNSClient._request (client.py lines 466-486) under its backoff
decorator, translated separately from its own source lines; the await on the
transport call is the suspension point and has no further effect here. -/
def async_request (c : BaseClientState) (transport : Nat → AttemptResult Response)
    (method path : String) (params : Option (List (String × String)))
    (json_data : Option Json) :
    HttpRequest × Except RequestFailure DecodedValue × Nat :=
  let req : HttpRequest :=
    { method := method, url := urljoin c.base_url ("/api/v2" ++ path),
      params := params, json_data := json_data }
  let run := backoffRun asyncRetriedExc transport 0 3
  (req,
   (match run.1 with
    | .ok r => liftTyped (handle_response r)
    | .error e => .error (.transport e)),
   run.2)

/-- The httpx.Client / httpx.AsyncClient handle a facade instance owns, as
constructed with timeout=self.timeout, verify=self.verify_ssl,
headers=self.headers. closeCalls counts invocations of close()/aclose() on the
handle. -/
structure TransportHandle where
  timeout : Nat
  verify : Bool
  headers : List (String × String)
  closeCalls : Nat
deriving Repr, DecidableEq

/-- The state of an AtlasDNSClient instance: the BaseClient fields plus the
transport handle self.client. -/
structure AtlasDNSClientState where
  base : BaseClientState
  client : TransportHandle
deriving Repr, DecidableEq

/-- AtlasDNSClient.__init__ (client.py lines 88-94): run BaseClient.__init__,
then create the one httpx.Client handle from the stored configuration. -/
def atlas_client_init (base_url : String) (api_key : Option String) (timeout : Nat)
    (max_retries : Nat) (verify_ssl : Bool) : AtlasDNSClientState :=
  let b := base_client_init base_url api_key timeout max_retries verify_ssl
  { base := b
    client := { timeout := b.timeout, verify := b.verify_ssl,
                headers := b.headers, closeCalls := 0 } }

/-- AtlasDNSClient.close: self.client.close(). -/
def close (s : AtlasDNSClientState) : AtlasDNSClientState :=
  { s with client := { s.client with closeCalls := s.client.closeCalls + 1 } }

/-- AtlasDNSClient.__enter__: returns self. -/
def enterHook (s : AtlasDNSClientState) : AtlasDNSClientState := s

/-- AtlasDNSClient.__exit__ (client.py lines 99-100): calls self.close()
unconditionally, whatever exception information the runtime passes in. The
three arguments model exc_type, exc_val, exc_tb (None on a normal exit). -/
def exitHook (s : AtlasDNSClientState) (exc_type exc_val exc_tb : Option String) :
    AtlasDNSClientState :=
  close s

/-- The state of an AsyncAtlasDNSClient instance. -/
structure AsyncAtlasDNSClientState where
  base : BaseClientState
  client : TransportHandle
deriving Repr, DecidableEq

/-- AsyncAtlasDNSClient.__init__ (client.py lines 448-454): run
BaseClient.__init__, then create the one httpx.AsyncClient handle. -/
def async_client_init (base_url : String) (api_key : Option String) (timeout : Nat)
    (max_retries : Nat) (verify_ssl : Bool) : AsyncAtlasDNSClientState :=
  let b := base_client_init base_url api_key timeout max_retries verify_ssl
  { base := b
    client := { timeout := b.timeout, verify := b.verify_ssl,
                headers := b.headers, closeCalls := 0 } }

/-- AsyncAtlasDNSClient.close: await self.client.aclose(). -/
def aclose (s : AsyncAtlasDNSClientState) : AsyncAtlasDNSClientState :=
  { s with client := { s.client with closeCalls := s.client.closeCalls + 1 } }

/-- AsyncAtlasDNSClient.__aenter__: returns self. -/
def aenterHook (s : AsyncAtlasDNSClientState) : AsyncAtlasDNSClientState := s

/-- AsyncAtlasDNSClient.__aexit__ (client.py lines 459-460): awaits
self.close() unconditionally, whatever exception information is passed in. -/
def aexitHook (s : AsyncAtlasDNSClientState) (exc_type exc_val exc_tb : Option String) :
    AsyncAtlasDNSClientState :=
  aclose s

/-- First value of a key in a JSON object's field list. -/
def jsonLookup (fields : List (String × Json)) (k : String) : Option Json :=
  (fields.find? (fun p => p.1 == k)).map (fun p => p.2)

/-- A JSON field read as a string, when present and a string. -/
def asStr : Option Json → Option String
  | some (.str s) => some s
  | _ => none

/-- An optional string as the JSON value pydantic serializes it to. -/
def optJson : Option String → Json
  | none => .null
  | some s => .str s

/-- Modelled from the spec: models.py is not among the repository files. §3
describes the domain models as plain structured records deserialized from
JSON with no behavior; the Zone model is given the three fields of the spec's
§8 example body ("id", "name", "type"). -/
structure Zone where
  id : Option String
  name : Option String
  type : Option String
deriving Repr, DecidableEq

/-- Modelled from the spec: pydantic's Zone.model_dump() — the model's plain
field mapping (§4.2 step 1: "flattens it to its plain field mapping"). -/
def Zone.model_dump (z : Zone) : Json :=
  .obj [("id", optJson z.id), ("name", optJson z.name), ("type", optJson z.type)]

/-- Modelled from the spec: Zone(**data) — pydantic construction from a JSON
object, reading the model's fields; `none` models the TypeError/validation
failure Python raises when data is not an object (outside every claim). -/
def zoneOfJson : Json → Option Zone
  | .obj fields =>
    some { id := asStr (jsonLookup fields "id"),
           name := asStr (jsonLookup fields "name"),
           type := asStr (jsonLookup fields "type") }
  | _ => none

/-- Modelled from the spec: models.py is not among the repository files; §3
describes every other domain model (Record, HealthCheck, TrafficPolicy,
GeoDNSRule, DNSSECConfig, WebhookEndpoint, BulkOperation, QueryResult,
AnalyticsData, SystemStatus) as a plain structured record — represented here
by its field mapping, with model_dump returning exactly that mapping. -/
structure PlainModel where
  fields : List (String × Json)
deriving Repr

/-- Modelled from the spec: model_dump() of a plain structured record is its
field mapping. -/
def PlainModel.model_dump (m : PlainModel) : Json := .obj m.fields

/-- Modelled from the spec: Model(**data) for a plain structured record; `none`
models the failure on a non-object (outside every claim). -/
def plainOfJson : Json → Option PlainModel
  | .obj fields => some { fields := fields }
  | _ => none

abbrev Record := PlainModel
abbrev HealthCheck := PlainModel
abbrev TrafficPolicy := PlainModel
abbrev GeoDNSRule := PlainModel
abbrev DNSSECConfig := PlainModel
abbrev WebhookEndpoint := PlainModel
abbrev BulkOperation := PlainModel
abbrev QueryResult := PlainModel
abbrev AnalyticsData := PlainModel
abbrev SystemStatus := PlainModel

/-- The JSON value of a _request result, when it decoded as JSON. -/
def decodedJson : DecodedValue → Option Json
  | .json j => some j
  | .text _ => none

/-- Zone(**data) applied to a _request result. -/
def zoneOfDecoded (v : DecodedValue) : Option Zone :=
  (decodedJson v).bind zoneOfJson

/-- Model(**data) applied to a _request result. -/
def plainOfDecoded (v : DecodedValue) : Option PlainModel :=
  (decodedJson v).bind plainOfJson

/-- [Zone(**zone) for zone in data]: requires a JSON array, every element an
object. -/
def zoneListOfDecoded : DecodedValue → Option (List Zone)
  | .json (.arr xs) => xs.mapM zoneOfJson
  | _ => none

/-- [Model(**x) for x in data] for the plain record models. -/
def plainListOfDecoded : DecodedValue → Option (List PlainModel)
  | .json (.arr xs) => xs.mapM plainOfJson
  | _ => none

/-- A Union[Zone, Dict] parameter. -/
inductive ZoneArg where
  | model (z : Zone)
  | mapping (d : Json)
deriving Repr

/-- `if isinstance(zone, Zone): zone = zone.model_dump()`: the body actually
sent. -/
def ZoneArg.flatten : ZoneArg → Json
  | .model z => z.model_dump
  | .mapping d => d

/-- A Union[Model, Dict] parameter for the plain record models. -/
inductive ModelArg where
  | model (m : PlainModel)
  | mapping (d : Json)
deriving Repr

/-- `if isinstance(x, Model): x = x.model_dump()`: the body actually sent. -/
def ModelArg.flatten : ModelArg → Json
  | .model m => m.model_dump
  | .mapping d => d

/-! The sync facade methods (client.py lines 128-442), each in explicit-state
form: a method reads self, calls self._request, wraps the result, and assigns
no attribute of self, so it returns the instance state unchanged alongside the
request it issued, the wrapped outcome, and the attempt count. Pydantic
construction failure on the decode side is `none` (see the model definitions). -/

/-- AtlasDNSClient.list_zones. The **params kwargs dict (possibly empty) is
passed as query parameters. -/
def list_zones (s : AtlasDNSClientState) (t : Nat → AttemptResult Response)
    (params : List (String × String)) :
    AtlasDNSClientState × HttpRequest × Except RequestFailure (Option (List Zone)) × Nat :=
  let out := sync_request s.base t "GET" "/zones" (some params) none
  (s, out.1, Except.map zoneListOfDecoded out.2.1, out.2.2)

/-- AtlasDNSClient.get_zone. -/
def get_zone (s : AtlasDNSClientState) (t : Nat → AttemptResult Response) (zone_id : String) :
    AtlasDNSClientState × HttpRequest × Except RequestFailure (Option Zone) × Nat :=
  let out := sync_request s.base t "GET" ("/zones/" ++ zone_id) none none
  (s, out.1, Except.map zoneOfDecoded out.2.1, out.2.2)

/-- AtlasDNSClient.create_zone (client.py lines 140-145). -/
def create_zone (s : AtlasDNSClientState) (t : Nat → AttemptResult Response) (zone : ZoneArg) :
    AtlasDNSClientState × HttpRequest × Except RequestFailure (Option Zone) × Nat :=
  let out := sync_request s.base t "POST" "/zones" none (some zone.flatten)
  (s, out.1, Except.map zoneOfDecoded out.2.1, out.2.2)

/-- AtlasDNSClient.update_zone. -/
def update_zone (s : AtlasDNSClientState) (t : Nat → AttemptResult Response)
    (zone_id : String) (updates : Json) :
    AtlasDNSClientState × HttpRequest × Except RequestFailure (Option Zone) × Nat :=
  let out := sync_request s.base t "PUT" ("/zones/" ++ zone_id) none (some updates)
  (s, out.1, Except.map zoneOfDecoded out.2.1, out.2.2)

/-- AtlasDNSClient.delete_zone (client.py lines 152-155): issue the request,
then return True. -/
def delete_zone (s : AtlasDNSClientState) (t : Nat → AttemptResult Response) (zone_id : String) :
    AtlasDNSClientState × HttpRequest × Except RequestFailure Bool × Nat :=
  let out := sync_request s.base t "DELETE" ("/zones/" ++ zone_id) none none
  (s, out.1, Except.map (fun _ => true) out.2.1, out.2.2)

/-- AtlasDNSClient.validate_zone: returns the _request result directly. -/
def validate_zone (s : AtlasDNSClientState) (t : Nat → AttemptResult Response) (zone_id : String) :
    AtlasDNSClientState × HttpRequest × Except RequestFailure DecodedValue × Nat :=
  let out := sync_request s.base t "GET" ("/zones/" ++ zone_id ++ "/validate") none none
  (s, out.1, out.2.1, out.2.2)

/-- AtlasDNSClient.list_records. -/
def list_records (s : AtlasDNSClientState) (t : Nat → AttemptResult Response)
    (zone_id : String) (params : List (String × String)) :
    AtlasDNSClientState × HttpRequest × Except RequestFailure (Option (List Record)) × Nat :=
  let out := sync_request s.base t "GET" ("/zones/" ++ zone_id ++ "/records") (some params) none
  (s, out.1, Except.map plainListOfDecoded out.2.1, out.2.2)

/-- AtlasDNSClient.get_record. -/
def get_record (s : AtlasDNSClientState) (t : Nat → AttemptResult Response)
    (zone_id record_id : String) :
    AtlasDNSClientState × HttpRequest × Except RequestFailure (Option Record) × Nat :=
  let out := sync_request s.base t "GET"
    ("/zones/" ++ zone_id ++ "/records/" ++ record_id) none none
  (s, out.1, Except.map plainOfDecoded out.2.1, out.2.2)

/-- AtlasDNSClient.create_record (client.py lines 173-178). -/
def create_record (s : AtlasDNSClientState) (t : Nat → AttemptResult Response)
    (zone_id : String) (record : ModelArg) :
    AtlasDNSClientState × HttpRequest × Except RequestFailure (Option Record) × Nat :=
  let out := sync_request s.base t "POST"
    ("/zones/" ++ zone_id ++ "/records") none (some record.flatten)
  (s, out.1, Except.map plainOfDecoded out.2.1, out.2.2)

/-- AtlasDNSClient.update_record. -/
def update_record (s : AtlasDNSClientState) (t : Nat → AttemptResult Response)
    (zone_id record_id : String) (updates : Json) :
    AtlasDNSClientState × HttpRequest × Except RequestFailure (Option Record) × Nat :=
  let out := sync_request s.base t "PUT"
    ("/zones/" ++ zone_id ++ "/records/" ++ record_id) none (some updates)
  (s, out.1, Except.map plainOfDecoded out.2.1, out.2.2)

/-- AtlasDNSClient.delete_record (client.py lines 189-192). -/
def delete_record (s : AtlasDNSClientState) (t : Nat → AttemptResult Response)
    (zone_id record_id : String) :
    AtlasDNSClientState × HttpRequest × Except RequestFailure Bool × Nat :=
  let out := sync_request s.base t "DELETE"
    ("/zones/" ++ zone_id ++ "/records/" ++ record_id) none none
  (s, out.1, Except.map (fun _ => true) out.2.1, out.2.2)

/-- AtlasDNSClient.bulk_create_records: flattens each list element, wraps the
list in a "records" object. -/
def bulk_create_records (s : AtlasDNSClientState) (t : Nat → AttemptResult Response)
    (zone_id : String) (records : List ModelArg) :
    AtlasDNSClientState × HttpRequest × Except RequestFailure (Option (List Record)) × Nat :=
  let records_data := records.map ModelArg.flatten
  let out := sync_request s.base t "POST" ("/zones/" ++ zone_id ++ "/records/bulk")
    none (some (.obj [("records", .arr records_data)]))
  (s, out.1, Except.map plainListOfDecoded out.2.1, out.2.2)

/-- AtlasDNSClient.execute_bulk_operation (client.py lines 208-212): body-only
passthrough, raw structured result out. -/
def execute_bulk_operation (s : AtlasDNSClientState) (t : Nat → AttemptResult Response)
    (operation : ModelArg) :
    AtlasDNSClientState × HttpRequest × Except RequestFailure DecodedValue × Nat :=
  let out := sync_request s.base t "POST" "/bulk" none (some operation.flatten)
  (s, out.1, out.2.1, out.2.2)

/-- AtlasDNSClient.list_health_checks. -/
def list_health_checks (s : AtlasDNSClientState) (t : Nat → AttemptResult Response)
    (params : List (String × String)) :
    AtlasDNSClientState × HttpRequest × Except RequestFailure (Option (List HealthCheck)) × Nat :=
  let out := sync_request s.base t "GET" "/health-checks" (some params) none
  (s, out.1, Except.map plainListOfDecoded out.2.1, out.2.2)

/-- AtlasDNSClient.get_health_check. -/
def get_health_check (s : AtlasDNSClientState) (t : Nat → AttemptResult Response)
    (check_id : String) :
    AtlasDNSClientState × HttpRequest × Except RequestFailure (Option HealthCheck) × Nat :=
  let out := sync_request s.base t "GET" ("/health-checks/" ++ check_id) none none
  (s, out.1, Except.map plainOfDecoded out.2.1, out.2.2)

/-- AtlasDNSClient.create_health_check (client.py lines 226-233). -/
def create_health_check (s : AtlasDNSClientState) (t : Nat → AttemptResult Response)
    (health_check : ModelArg) :
    AtlasDNSClientState × HttpRequest × Except RequestFailure (Option HealthCheck) × Nat :=
  let out := sync_request s.base t "POST" "/health-checks" none (some health_check.flatten)
  (s, out.1, Except.map plainOfDecoded out.2.1, out.2.2)

/-- AtlasDNSClient.update_health_check. -/
def update_health_check (s : AtlasDNSClientState) (t : Nat → AttemptResult Response)
    (check_id : String) (updates : Json) :
    AtlasDNSClientState × HttpRequest × Except RequestFailure (Option HealthCheck) × Nat :=
  let out := sync_request s.base t "PUT" ("/health-checks/" ++ check_id) none (some updates)
  (s, out.1, Except.map plainOfDecoded out.2.1, out.2.2)

/-- AtlasDNSClient.delete_health_check (client.py lines 244-247). -/
def delete_health_check (s : AtlasDNSClientState) (t : Nat → AttemptResult Response)
    (check_id : String) :
    AtlasDNSClientState × HttpRequest × Except RequestFailure Bool × Nat :=
  let out := sync_request s.base t "DELETE" ("/health-checks/" ++ check_id) none none
  (s, out.1, Except.map (fun _ => true) out.2.1, out.2.2)

/-- AtlasDNSClient.test_health_check. -/
def test_health_check (s : AtlasDNSClientState) (t : Nat → AttemptResult Response)
    (check_id : String) :
    AtlasDNSClientState × HttpRequest × Except RequestFailure DecodedValue × Nat :=
  let out := sync_request s.base t "POST" ("/health-checks/" ++ check_id ++ "/test") none none
  (s, out.1, out.2.1, out.2.2)

/-- AtlasDNSClient.list_traffic_policies. -/
def list_traffic_policies (s : AtlasDNSClientState) (t : Nat → AttemptResult Response)
    (params : List (String × String)) :
    AtlasDNSClientState × HttpRequest × Except RequestFailure (Option (List TrafficPolicy)) × Nat :=
  let out := sync_request s.base t "GET" "/traffic-policies" (some params) none
  (s, out.1, Except.map plainListOfDecoded out.2.1, out.2.2)

/-- AtlasDNSClient.get_traffic_policy. -/
def get_traffic_policy (s : AtlasDNSClientState) (t : Nat → AttemptResult Response)
    (policy_id : String) :
    AtlasDNSClientState × HttpRequest × Except RequestFailure (Option TrafficPolicy) × Nat :=
  let out := sync_request s.base t "GET" ("/traffic-policies/" ++ policy_id) none none
  (s, out.1, Except.map plainOfDecoded out.2.1, out.2.2)

/-- AtlasDNSClient.create_traffic_policy (client.py lines 265-272). -/
def create_traffic_policy (s : AtlasDNSClientState) (t : Nat → AttemptResult Response)
    (policy : ModelArg) :
    AtlasDNSClientState × HttpRequest × Except RequestFailure (Option TrafficPolicy) × Nat :=
  let out := sync_request s.base t "POST" "/traffic-policies" none (some policy.flatten)
  (s, out.1, Except.map plainOfDecoded out.2.1, out.2.2)

/-- AtlasDNSClient.update_traffic_policy. -/
def update_traffic_policy (s : AtlasDNSClientState) (t : Nat → AttemptResult Response)
    (policy_id : String) (updates : Json) :
    AtlasDNSClientState × HttpRequest × Except RequestFailure (Option TrafficPolicy) × Nat :=
  let out := sync_request s.base t "PUT" ("/traffic-policies/" ++ policy_id) none (some updates)
  (s, out.1, Except.map plainOfDecoded out.2.1, out.2.2)

/-- AtlasDNSClient.delete_traffic_policy (client.py lines 283-286). -/
def delete_traffic_policy (s : AtlasDNSClientState) (t : Nat → AttemptResult Response)
    (policy_id : String) :
    AtlasDNSClientState × HttpRequest × Except RequestFailure Bool × Nat :=
  let out := sync_request s.base t "DELETE" ("/traffic-policies/" ++ policy_id) none none
  (s, out.1, Except.map (fun _ => true) out.2.1, out.2.2)

/-- AtlasDNSClient.simulate_traffic_policy. -/
def simulate_traffic_policy (s : AtlasDNSClientState) (t : Nat → AttemptResult Response)
    (policy_id : String) (params : Json) :
    AtlasDNSClientState × HttpRequest × Except RequestFailure DecodedValue × Nat :=
  let out := sync_request s.base t "POST"
    ("/traffic-policies/" ++ policy_id ++ "/simulate") none (some params)
  (s, out.1, out.2.1, out.2.2)

/-- AtlasDNSClient.list_geodns_rules. -/
def list_geodns_rules (s : AtlasDNSClientState) (t : Nat → AttemptResult Response)
    (params : List (String × String)) :
    AtlasDNSClientState × HttpRequest × Except RequestFailure (Option (List GeoDNSRule)) × Nat :=
  let out := sync_request s.base t "GET" "/geodns" (some params) none
  (s, out.1, Except.map plainListOfDecoded out.2.1, out.2.2)

/-- AtlasDNSClient.get_geodns_rule. -/
def get_geodns_rule (s : AtlasDNSClientState) (t : Nat → AttemptResult Response)
    (rule_id : String) :
    AtlasDNSClientState × HttpRequest × Except RequestFailure (Option GeoDNSRule) × Nat :=
  let out := sync_request s.base t "GET" ("/geodns/" ++ rule_id) none none
  (s, out.1, Except.map plainOfDecoded out.2.1, out.2.2)

/-- AtlasDNSClient.create_geodns_rule (client.py lines 306-311). -/
def create_geodns_rule (s : AtlasDNSClientState) (t : Nat → AttemptResult Response)
    (rule : ModelArg) :
    AtlasDNSClientState × HttpRequest × Except RequestFailure (Option GeoDNSRule) × Nat :=
  let out := sync_request s.base t "POST" "/geodns" none (some rule.flatten)
  (s, out.1, Except.map plainOfDecoded out.2.1, out.2.2)

/-- AtlasDNSClient.update_geodns_rule. -/
def update_geodns_rule (s : AtlasDNSClientState) (t : Nat → AttemptResult Response)
    (rule_id : String) (updates : Json) :
    AtlasDNSClientState × HttpRequest × Except RequestFailure (Option GeoDNSRule) × Nat :=
  let out := sync_request s.base t "PUT" ("/geodns/" ++ rule_id) none (some updates)
  (s, out.1, Except.map plainOfDecoded out.2.1, out.2.2)

/-- AtlasDNSClient.delete_geodns_rule (client.py lines 318-321). -/
def delete_geodns_rule (s : AtlasDNSClientState) (t : Nat → AttemptResult Response)
    (rule_id : String) :
    AtlasDNSClientState × HttpRequest × Except RequestFailure Bool × Nat :=
  let out := sync_request s.base t "DELETE" ("/geodns/" ++ rule_id) none none
  (s, out.1, Except.map (fun _ => true) out.2.1, out.2.2)

/-- AtlasDNSClient.get_geodns_regions: returns the _request result directly. -/
def get_geodns_regions (s : AtlasDNSClientState) (t : Nat → AttemptResult Response) :
    AtlasDNSClientState × HttpRequest × Except RequestFailure DecodedValue × Nat :=
  let out := sync_request s.base t "GET" "/geodns/regions" none none
  (s, out.1, out.2.1, out.2.2)

/-- AtlasDNSClient.get_dnssec_status. -/
def get_dnssec_status (s : AtlasDNSClientState) (t : Nat → AttemptResult Response)
    (zone_id : String) :
    AtlasDNSClientState × HttpRequest × Except RequestFailure (Option DNSSECConfig) × Nat :=
  let out := sync_request s.base t "GET" ("/zones/" ++ zone_id ++ "/dnssec") none none
  (s, out.1, Except.map plainOfDecoded out.2.1, out.2.2)

/-- AtlasDNSClient.enable_dnssec. -/
def enable_dnssec (s : AtlasDNSClientState) (t : Nat → AttemptResult Response)
    (zone_id : String) (config : Json) :
    AtlasDNSClientState × HttpRequest × Except RequestFailure (Option DNSSECConfig) × Nat :=
  let out := sync_request s.base t "POST"
    ("/zones/" ++ zone_id ++ "/dnssec/enable") none (some config)
  (s, out.1, Except.map plainOfDecoded out.2.1, out.2.2)

/-- AtlasDNSClient.disable_dnssec: issue the request, then return True. -/
def disable_dnssec (s : AtlasDNSClientState) (t : Nat → AttemptResult Response)
    (zone_id : String) :
    AtlasDNSClientState × HttpRequest × Except RequestFailure Bool × Nat :=
  let out := sync_request s.base t "POST" ("/zones/" ++ zone_id ++ "/dnssec/disable") none none
  (s, out.1, Except.map (fun _ => true) out.2.1, out.2.2)

/-- AtlasDNSClient.rotate_dnssec_keys. -/
def rotate_dnssec_keys (s : AtlasDNSClientState) (t : Nat → AttemptResult Response)
    (zone_id : String) :
    AtlasDNSClientState × HttpRequest × Except RequestFailure (Option DNSSECConfig) × Nat :=
  let out := sync_request s.base t "POST"
    ("/zones/" ++ zone_id ++ "/dnssec/rotate-keys") none none
  (s, out.1, Except.map plainOfDecoded out.2.1, out.2.2)

/-- AtlasDNSClient.get_analytics_overview. -/
def get_analytics_overview (s : AtlasDNSClientState) (t : Nat → AttemptResult Response)
    (params : List (String × String)) :
    AtlasDNSClientState × HttpRequest × Except RequestFailure (Option AnalyticsData) × Nat :=
  let out := sync_request s.base t "GET" "/analytics/overview" (some params) none
  (s, out.1, Except.map plainOfDecoded out.2.1, out.2.2)

/-- AtlasDNSClient.get_query_analytics. -/
def get_query_analytics (s : AtlasDNSClientState) (t : Nat → AttemptResult Response)
    (params : List (String × String)) :
    AtlasDNSClientState × HttpRequest × Except RequestFailure DecodedValue × Nat :=
  let out := sync_request s.base t "GET" "/analytics/queries" (some params) none
  (s, out.1, out.2.1, out.2.2)

/-- AtlasDNSClient.get_performance_metrics. -/
def get_performance_metrics (s : AtlasDNSClientState) (t : Nat → AttemptResult Response)
    (params : List (String × String)) :
    AtlasDNSClientState × HttpRequest × Except RequestFailure DecodedValue × Nat :=
  let out := sync_request s.base t "GET" "/analytics/performance" (some params) none
  (s, out.1, out.2.1, out.2.2)

/-- AtlasDNSClient.get_geographic_analytics. -/
def get_geographic_analytics (s : AtlasDNSClientState) (t : Nat → AttemptResult Response)
    (params : List (String × String)) :
    AtlasDNSClientState × HttpRequest × Except RequestFailure DecodedValue × Nat :=
  let out := sync_request s.base t "GET" "/analytics/geography" (some params) none
  (s, out.1, out.2.1, out.2.2)

/-- AtlasDNSClient.get_top_domains. -/
def get_top_domains (s : AtlasDNSClientState) (t : Nat → AttemptResult Response)
    (params : List (String × String)) :
    AtlasDNSClientState × HttpRequest × Except RequestFailure DecodedValue × Nat :=
  let out := sync_request s.base t "GET" "/analytics/top-domains" (some params) none
  (s, out.1, out.2.1, out.2.2)

/-- AtlasDNSClient.query_dns: body is the dict literal
`{"domain": domain, "type": record_type, **params}`; in the field-list
representation the kwargs entries follow the two literal keys (on a duplicate
key Python's dict merge would keep the later, kwargs, value — no claim reads
this value back). -/
def query_dns (s : AtlasDNSClientState) (t : Nat → AttemptResult Response)
    (domain record_type : String) (params : List (String × Json)) :
    AtlasDNSClientState × HttpRequest × Except RequestFailure (Option QueryResult) × Nat :=
  let out := sync_request s.base t "POST" "/query" none
    (some (.obj ([("domain", .str domain), ("type", .str record_type)] ++ params)))
  (s, out.1, Except.map plainOfDecoded out.2.1, out.2.2)

/-- AtlasDNSClient.get_system_status. -/
def get_system_status (s : AtlasDNSClientState) (t : Nat → AttemptResult Response) :
    AtlasDNSClientState × HttpRequest × Except RequestFailure (Option SystemStatus) × Nat :=
  let out := sync_request s.base t "GET" "/monitoring/status" none none
  (s, out.1, Except.map plainOfDecoded out.2.1, out.2.2)

/-- AtlasDNSClient.get_metrics. -/
def get_metrics (s : AtlasDNSClientState) (t : Nat → AttemptResult Response)
    (params : List (String × String)) :
    AtlasDNSClientState × HttpRequest × Except RequestFailure DecodedValue × Nat :=
  let out := sync_request s.base t "GET" "/monitoring/metrics" (some params) none
  (s, out.1, out.2.1, out.2.2)

/-- AtlasDNSClient.list_webhooks. -/
def list_webhooks (s : AtlasDNSClientState) (t : Nat → AttemptResult Response)
    (params : List (String × String)) :
    AtlasDNSClientState × HttpRequest × Except RequestFailure (Option (List WebhookEndpoint)) × Nat :=
  let out := sync_request s.base t "GET" "/webhooks" (some params) none
  (s, out.1, Except.map plainListOfDecoded out.2.1, out.2.2)

/-- AtlasDNSClient.get_webhook. -/
def get_webhook (s : AtlasDNSClientState) (t : Nat → AttemptResult Response)
    (webhook_id : String) :
    AtlasDNSClientState × HttpRequest × Except RequestFailure (Option WebhookEndpoint) × Nat :=
  let out := sync_request s.base t "GET" ("/webhooks/" ++ webhook_id) none none
  (s, out.1, Except.map plainOfDecoded out.2.1, out.2.2)

/-- AtlasDNSClient.create_webhook (client.py lines 417-424). -/
def create_webhook (s : AtlasDNSClientState) (t : Nat → AttemptResult Response)
    (webhook : ModelArg) :
    AtlasDNSClientState × HttpRequest × Except RequestFailure (Option WebhookEndpoint) × Nat :=
  let out := sync_request s.base t "POST" "/webhooks" none (some webhook.flatten)
  (s, out.1, Except.map plainOfDecoded out.2.1, out.2.2)

/-- AtlasDNSClient.update_webhook. -/
def update_webhook (s : AtlasDNSClientState) (t : Nat → AttemptResult Response)
    (webhook_id : String) (updates : Json) :
    AtlasDNSClientState × HttpRequest × Except RequestFailure (Option WebhookEndpoint) × Nat :=
  let out := sync_request s.base t "PUT" ("/webhooks/" ++ webhook_id) none (some updates)
  (s, out.1, Except.map plainOfDecoded out.2.1, out.2.2)

/-- AtlasDNSClient.delete_webhook (client.py lines 435-438). -/
def delete_webhook (s : AtlasDNSClientState) (t : Nat → AttemptResult Response)
    (webhook_id : String) :
    AtlasDNSClientState × HttpRequest × Except RequestFailure Bool × Nat :=
  let out := sync_request s.base t "DELETE" ("/webhooks/" ++ webhook_id) none none
  (s, out.1, Except.map (fun _ => true) out.2.1, out.2.2)

/-- AtlasDNSClient.test_webhook. -/
def test_webhook (s : AtlasDNSClientState) (t : Nat → AttemptResult Response)
    (webhook_id : String) :
    AtlasDNSClientState × HttpRequest × Except RequestFailure DecodedValue × Nat :=
  let out := sync_request s.base t "POST" ("/webhooks/" ++ webhook_id ++ "/test") none none
  (s, out.1, out.2.1, out.2.2)

/-- The transport behavior that returns the same response on every attempt. -/
def constRespond (r : Response) : Nat → AttemptResult Response :=
  fun _ => .respond r

/-- A transport that raises httpx.ConnectError on the first two attempts and
then returns the given response. -/
def twoFailuresThen (r : Response) : Nat → AttemptResult Response
  | 0 => .raiseExc .connectError
  | 1 => .raiseExc .connectError
  | _ => .respond r

/-- A transport that raises httpx.ConnectError on every attempt. -/
def allConnectFailures : Nat → AttemptResult Response :=
  fun _ => .raiseExc .connectError

/-! The async facade methods the source enumerates (client.py lines 491-516);
Python gives them the same names on AsyncAtlasDNSClient, prefixed here to
coexist with the sync ones. Each awaits self._request and assigns no attribute
of self. -/

/-- AsyncAtlasDNSClient.list_zones. -/
def async_list_zones (s : AsyncAtlasDNSClientState) (t : Nat → AttemptResult Response)
    (params : List (String × String)) :
    AsyncAtlasDNSClientState × HttpRequest × Except RequestFailure (Option (List Zone)) × Nat :=
  let out := async_request s.base t "GET" "/zones" (some params) none
  (s, out.1, Except.map zoneListOfDecoded out.2.1, out.2.2)

/-- AsyncAtlasDNSClient.get_zone. -/
def async_get_zone (s : AsyncAtlasDNSClientState) (t : Nat → AttemptResult Response)
    (zone_id : String) :
    AsyncAtlasDNSClientState × HttpRequest × Except RequestFailure (Option Zone) × Nat :=
  let out := async_request s.base t "GET" ("/zones/" ++ zone_id) none none
  (s, out.1, Except.map zoneOfDecoded out.2.1, out.2.2)

/-- AsyncAtlasDNSClient.create_zone. -/
def async_create_zone (s : AsyncAtlasDNSClientState) (t : Nat → AttemptResult Response)
    (zone : ZoneArg) :
    AsyncAtlasDNSClientState × HttpRequest × Except RequestFailure (Option Zone) × Nat :=
  let out := async_request s.base t "POST" "/zones" none (some zone.flatten)
  (s, out.1, Except.map zoneOfDecoded out.2.1, out.2.2)

/-- AsyncAtlasDNSClient.update_zone. -/
def async_update_zone (s : AsyncAtlasDNSClientState) (t : Nat → AttemptResult Response)
    (zone_id : String) (updates : Json) :
    AsyncAtlasDNSClientState × HttpRequest × Except RequestFailure (Option Zone) × Nat :=
  let out := async_request s.base t "PUT" ("/zones/" ++ zone_id) none (some updates)
  (s, out.1, Except.map zoneOfDecoded out.2.1, out.2.2)

/-- AsyncAtlasDNSClient.delete_zone. -/
def async_delete_zone (s : AsyncAtlasDNSClientState) (t : Nat → AttemptResult Response)
    (zone_id : String) :
    AsyncAtlasDNSClientState × HttpRequest × Except RequestFailure Bool × Nat :=
  let out := async_request s.base t "DELETE" ("/zones/" ++ zone_id) none none
  (s, out.1, Except.map (fun _ => true) out.2.1, out.2.2)

/-- A client constructed with every constructor default. -/
def defaultClient : AtlasDNSClientState :=
  atlas_client_init DEFAULT_BASE_URL none DEFAULT_TIMEOUT DEFAULT_MAX_RETRIES DEFAULT_VERIFY_SSL

/-- The spec §8 example: the plain mapping passed to create_zone. -/
def exampleZoneMapping : Json :=
  .obj [("name", .str "example.com"), ("type", .str "primary")]

/-- The spec §8 example: the 201 response whose body is the created zone. -/
def exampleZoneResponse : Response :=
  { status := 201
    text := ""
    jsonBody :=
      some (.obj [("id", .str "z1"), ("name", .str "example.com"), ("type", .str "primary")]) }

/-! Helper lemmas shared by the claim theorems. -/

/-- The sync and async decorators name the same exception tuple. -/
theorem retriedExc_eq : asyncRetriedExc = syncRetriedExc := by
  funext e
  cases e <;> rfl

/-- Under a transport that responds on the first attempt, _request makes one
attempt and returns what _handle_response makes of the response. -/
theorem sync_request_const_respond (c : BaseClientState) (r : Response) (method path : String)
    (params : Option (List (String × String))) (jd : Option Json) :
    (sync_request c (constRespond r) method path params jd).2
      = (liftTyped (handle_response r), 1) := rfl

/-- The wrapping a delete method applies, on a response the pipeline accepts. -/
theorem delete_wrap_ok (r : Response) (v : DecodedValue) (h : handle_response r = .ok v) :
    Except.map (fun _ => true) (liftTyped (handle_response r))
      = (.ok true : Except RequestFailure Bool) := by
  rw [h]
  rfl

/-- The wrapping a delete method applies, on a response the pipeline rejects. -/
theorem delete_wrap_error (r : Response) (e : TypedError) (h : handle_response r = .error e) :
    Except.map (fun _ => true) (liftTyped (handle_response r))
      = (.error (.typed e) : Except RequestFailure Bool) := by
  rw [h]
  rfl

/-- C1: for every response handled by the pipeline, _handle_response maps
status 401 to AuthenticationError "Authentication failed", 403 to
AuthenticationError "Permission denied", 404 to ResourceNotFoundError
"Resource not found", 422 to ValidationError carrying the raw body text, 429
to RateLimitError "Rate limit exceeded", every status at least 500 to
ServerError carrying the status code, and every other status in 400-499 to the
generic AtlasDNSException carrying the raw body text; each being an exact
equality, no other error kind is ever raised for those statuses. -/
theorem handle_response_status_error_table (r : Response) :
    (r.status = 401 →
      handle_response r = .error (.AuthenticationError "Authentication failed")) ∧
    (r.status = 403 →
      handle_response r = .error (.AuthenticationError "Permission denied")) ∧
    (r.status = 404 →
      handle_response r = .error (.ResourceNotFoundError "Resource not found")) ∧
    (r.status = 422 →
      handle_response r = .error (.ValidationError ("Validation error: " ++ r.text))) ∧
    (r.status = 429 →
      handle_response r = .error (.RateLimitError "Rate limit exceeded")) ∧
    (r.status ≥ 500 →
      handle_response r = .error (.ServerError ("Server error: " ++ toString r.status))) ∧
    (r.status ≥ 400 → r.status < 500 → r.status ≠ 401 → r.status ≠ 403 → r.status ≠ 404 →
      r.status ≠ 422 → r.status ≠ 429 →
      handle_response r = .error (.AtlasDNSException ("API error: " ++ r.text))) := by
  refine ⟨?_, ?_, ?_, ?_, ?_, ?_, ?_⟩
  · intro h
    simp [handle_response, h]
  · intro h
    simp [handle_response, h]
  · intro h
    simp [handle_response, h]
  · intro h
    simp [handle_response, h]
  · intro h
    simp [handle_response, h]
  · intro h
    have h1 : r.status ≠ 401 := by omega
    have h2 : r.status ≠ 403 := by omega
    have h3 : r.status ≠ 404 := by omega
    have h4 : r.status ≠ 422 := by omega
    have h5 : r.status ≠ 429 := by omega
    simp [handle_response, h1, h2, h3, h4, h5, h]
  · intro h400 h500 h1 h2 h3 h4 h5
    have h6 : ¬ r.status ≥ 500 := by omega
    simp [handle_response, h1, h2, h3, h4, h5, h6, h400]

/-- C1 witness: the table evaluated at the eight statuses the claim names and
at a generic 4xx status. -/
theorem handle_response_status_error_table_checks :
    handle_response { status := 401, text := "b", jsonBody := none }
      = .error (.AuthenticationError "Authentication failed") ∧
    handle_response { status := 403, text := "b", jsonBody := none }
      = .error (.AuthenticationError "Permission denied") ∧
    handle_response { status := 404, text := "b", jsonBody := none }
      = .error (.ResourceNotFoundError "Resource not found") ∧
    handle_response { status := 422, text := "bad field", jsonBody := none }
      = .error (.ValidationError "Validation error: bad field") ∧
    handle_response { status := 429, text := "b", jsonBody := none }
      = .error (.RateLimitError "Rate limit exceeded") ∧
    handle_response { status := 500, text := "b", jsonBody := none }
      = .error (.ServerError "Server error: 500") ∧
    handle_response { status := 502, text := "b", jsonBody := none }
      = .error (.ServerError "Server error: 502") ∧
    handle_response { status := 503, text := "b", jsonBody := none }
      = .error (.ServerError "Server error: 503") ∧
    handle_response { status := 418, text := "teapot", jsonBody := none }
      = .error (.AtlasDNSException "API error: teapot") := by
  refine ⟨?_, ?_, ?_, ?_, ?_, ?_, ?_, ?_, ?_⟩
  · exact (handle_response_status_error_table
      { status := 401, text := "b", jsonBody := none }).1 rfl
  · exact (handle_response_status_error_table
      { status := 403, text := "b", jsonBody := none }).2.1 rfl
  · exact (handle_response_status_error_table
      { status := 404, text := "b", jsonBody := none }).2.2.1 rfl
  · exact (handle_response_status_error_table
      { status := 422, text := "bad field", jsonBody := none }).2.2.2.1 rfl
  · exact (handle_response_status_error_table
      { status := 429, text := "b", jsonBody := none }).2.2.2.2.1 rfl
  · exact (handle_response_status_error_table
      { status := 500, text := "b", jsonBody := none }).2.2.2.2.2.1 (by decide)
  · exact (handle_response_status_error_table
      { status := 502, text := "b", jsonBody := none }).2.2.2.2.2.1 (by decide)
  · exact (handle_response_status_error_table
      { status := 503, text := "b", jsonBody := none }).2.2.2.2.2.1 (by decide)
  · exact (handle_response_status_error_table
      { status := 418, text := "teapot", jsonBody := none }).2.2.2.2.2.2
      (by decide) (by decide) (by decide) (by decide) (by decide) (by decide) (by decide)

/-- C2, the code evaluated at the failing input: the backoff decorator
hard-codes max_tries = 3, so a client constructed with max_retries = 2 still
has a third transport attempt made on its behalf — after two consecutive
connection failures the call succeeds on the third attempt instead of
surfacing the failure after the configured two. The last two conjuncts record
the default-configuration behavior the claim also states: two failures then a
success yield the success on the third attempt (two retries), and connection
failures on every attempt surface the failure after exactly 3 attempts. -/
theorem sync_request_ignores_configured_max_retries :
    (base_client_init DEFAULT_BASE_URL none DEFAULT_TIMEOUT 2 DEFAULT_VERIFY_SSL).max_retries
      = 2 ∧
    (sync_request (base_client_init DEFAULT_BASE_URL none DEFAULT_TIMEOUT 2 DEFAULT_VERIFY_SSL)
        (twoFailuresThen { status := 200, text := "{}", jsonBody := some (.obj []) })
        "GET" "/zones" none none).2
      = (.ok (.json (.obj [])), 3) ∧
    (sync_request defaultClient.base
        (twoFailuresThen { status := 200, text := "{}", jsonBody := some (.obj []) })
        "GET" "/zones" none none).2
      = (.ok (.json (.obj [])), 3) ∧
    (sync_request defaultClient.base allConnectFailures "GET" "/zones" none none).2
      = (.error (.transport .connectError), 3) :=
  ⟨rfl, rfl, rfl, rfl⟩

/-- C3 counterexample: status 600 lies outside 400-599, yet the pipeline does
not return the decoded body — it raises ServerError, because the source's
`status_code >= 500` branch catches every status from 500 upward. -/
theorem success_branch_refuted_at_status_600 :
    ¬ (400 ≤ 600 ∧ 600 ≤ 599) ∧
    handle_response { status := 600, text := "payload", jsonBody := some (.obj []) }
      = .error (.ServerError "Server error: 600") :=
  ⟨by omega, rfl⟩

/-- C3 as amended: for every response whose status is strictly below 400 (the
2xx/3xx success branch), the pipeline attempts to decode the body as JSON and
returns the decoded value; if JSON decoding fails it returns the raw response
text unchanged, raising no error of any kind. -/
theorem handle_response_success_below_400 (r : Response) (h : r.status < 400) :
    handle_response r
      = .ok (match r.jsonBody with
             | some j => DecodedValue.json j
             | none => DecodedValue.text r.text) := by
  have h1 : r.status ≠ 401 := by omega
  have h2 : r.status ≠ 403 := by omega
  have h3 : r.status ≠ 404 := by omega
  have h4 : r.status ≠ 422 := by omega
  have h5 : r.status ≠ 429 := by omega
  have h6 : ¬ r.status ≥ 500 := by omega
  have h7 : ¬ r.status ≥ 400 := by omega
  simp only [handle_response, h1, h2, h3, h4, h5, h6, h7, if_false, if_neg,
    not_false_eq_true]
  cases r.jsonBody <;> rfl

/-- C3 witness: a 200 response with a non-JSON body yields the raw text, and a
200 response with a JSON body yields the decoded value. -/
theorem handle_response_success_below_400_check :
    handle_response { status := 200, text := "plain text body", jsonBody := none }
      = .ok (.text "plain text body") ∧
    handle_response { status := 200, text := "[1]", jsonBody := some (.arr [.num 1]) }
      = .ok (.json (.arr [.num 1])) :=
  ⟨handle_response_success_below_400
      { status := 200, text := "plain text body", jsonBody := none } (by decide),
   handle_response_success_below_400
      { status := 200, text := "[1]", jsonBody := some (.arr [.num 1]) } (by decide)⟩

/-- C4: the synchronous and asynchronous request pipelines are observationally
equivalent — for every configuration, transport behavior, method, path, params
and body, AsyncAtlasDNSClient._request returns what AtlasDNSClient._request
returns (same request built, same status-to-error mapping, same attempt
count), and the two backoff decorators carry the same policy (same wait
generator, same retried exception tuple, same max_tries). -/
theorem sync_async_request_pipelines_coincide :
    (∀ (c : BaseClientState) (t : Nat → AttemptResult Response) (method path : String)
       (params : Option (List (String × String))) (jd : Option Json),
       async_request c t method path params jd = sync_request c t method path params jd) ∧
    asyncRequestPolicy = syncRequestPolicy := by
  constructor
  · intro c t method path params jd
    unfold async_request sync_request
    rw [retriedExc_eq]
  · unfold asyncRequestPolicy syncRequestPolicy
    rw [retriedExc_eq]

/-- C5: every delete method returns True exactly when the pipeline accepts the
response, and otherwise propagates the pipeline's typed error instead of
returning a boolean; in particular delete_record against a 404 response raises
ResourceNotFoundError. -/
theorem delete_methods_true_or_typed_error :
    ∀ (s : AtlasDNSClientState) (r : Response) (zid rid hid pid gid wid : String),
      (∀ v, handle_response r = .ok v →
        (delete_zone s (constRespond r) zid).2.2.1 = .ok true ∧
        (delete_record s (constRespond r) zid rid).2.2.1 = .ok true ∧
        (delete_health_check s (constRespond r) hid).2.2.1 = .ok true ∧
        (delete_traffic_policy s (constRespond r) pid).2.2.1 = .ok true ∧
        (delete_geodns_rule s (constRespond r) gid).2.2.1 = .ok true ∧
        (delete_webhook s (constRespond r) wid).2.2.1 = .ok true) ∧
      (∀ e, handle_response r = .error e →
        (delete_zone s (constRespond r) zid).2.2.1 = .error (.typed e) ∧
        (delete_record s (constRespond r) zid rid).2.2.1 = .error (.typed e) ∧
        (delete_health_check s (constRespond r) hid).2.2.1 = .error (.typed e) ∧
        (delete_traffic_policy s (constRespond r) pid).2.2.1 = .error (.typed e) ∧
        (delete_geodns_rule s (constRespond r) gid).2.2.1 = .error (.typed e) ∧
        (delete_webhook s (constRespond r) wid).2.2.1 = .error (.typed e)) ∧
      (r.status = 404 →
        (delete_record s (constRespond r) zid rid).2.2.1
          = .error (.typed (.ResourceNotFoundError "Resource not found"))) := by
  intro s r zid rid hid pid gid wid
  refine ⟨fun v h => ⟨?_, ?_, ?_, ?_, ?_, ?_⟩, fun e h => ⟨?_, ?_, ?_, ?_, ?_, ?_⟩, ?_⟩
  · exact delete_wrap_ok r v h
  · exact delete_wrap_ok r v h
  · exact delete_wrap_ok r v h
  · exact delete_wrap_ok r v h
  · exact delete_wrap_ok r v h
  · exact delete_wrap_ok r v h
  · exact delete_wrap_error r e h
  · exact delete_wrap_error r e h
  · exact delete_wrap_error r e h
  · exact delete_wrap_error r e h
  · exact delete_wrap_error r e h
  · exact delete_wrap_error r e h
  · intro h404
    have h : handle_response r = .error (.ResourceNotFoundError "Resource not found") := by
      simp [handle_response, h404]
    exact delete_wrap_error r _ h

/-- C5 witness: delete_record against a 404 response raises
ResourceNotFoundError, and delete_zone against a 204 response returns True. -/
theorem delete_methods_true_or_typed_error_check :
    (delete_record defaultClient
        (constRespond { status := 404, text := "nf", jsonBody := none }) "z1" "r1").2.2.1
      = .error (.typed (.ResourceNotFoundError "Resource not found")) ∧
    (delete_zone defaultClient
        (constRespond { status := 204, text := "", jsonBody := none }) "z1").2.2.1
      = .ok true :=
  ⟨(delete_methods_true_or_typed_error defaultClient
      { status := 404, text := "nf", jsonBody := none } "z1" "r1" "h" "p" "g" "w").2.2 rfl,
   ((delete_methods_true_or_typed_error defaultClient
      { status := 204, text := "", jsonBody := none } "z1" "r1" "h" "p" "g" "w").1
      (.text "") rfl).1⟩

/-- C6: each write method that accepts a typed model or a plain mapping issues
the identical outbound request (same method, same url, same query parameters,
same JSON body) when called with a model instance as when called with that
instance's flattened field mapping. -/
theorem write_methods_model_mapping_same_request :
    ∀ (s : AtlasDNSClientState) (t : Nat → AttemptResult Response) (zid : String)
      (z : Zone) (m : PlainModel),
      (create_zone s t (.model z)).2.1 = (create_zone s t (.mapping z.model_dump)).2.1 ∧
      (create_record s t zid (.model m)).2.1
        = (create_record s t zid (.mapping m.model_dump)).2.1 ∧
      (create_health_check s t (.model m)).2.1
        = (create_health_check s t (.mapping m.model_dump)).2.1 ∧
      (create_traffic_policy s t (.model m)).2.1
        = (create_traffic_policy s t (.mapping m.model_dump)).2.1 ∧
      (create_geodns_rule s t (.model m)).2.1
        = (create_geodns_rule s t (.mapping m.model_dump)).2.1 ∧
      (create_webhook s t (.model m)).2.1
        = (create_webhook s t (.mapping m.model_dump)).2.1 ∧
      (execute_bulk_operation s t (.model m)).2.1
        = (execute_bulk_operation s t (.mapping m.model_dump)).2.1 :=
  fun _ _ _ _ _ => ⟨rfl, rfl, rfl, rfl, rfl, rfl, rfl⟩

/-- C7: create_zone with the mapping of the spec's example issues POST
http://localhost:5380/api/v2/zones with exactly that mapping as the JSON body,
and the 201 response body decodes to a Zone whose fields match it. -/
theorem create_zone_example_request_and_decode :
    (create_zone defaultClient (constRespond exampleZoneResponse)
        (.mapping exampleZoneMapping)).2.1
      = { method := "POST", url := "http://localhost:5380/api/v2/zones",
          params := none, json_data := some exampleZoneMapping } ∧
    (create_zone defaultClient (constRespond exampleZoneResponse)
        (.mapping exampleZoneMapping)).2.2.1
      = .ok (some { id := some "z1", name := some "example.com", type := some "primary" }) :=
  ⟨rfl, rfl⟩

/-- C8: each client is constructed with a single fresh transport handle, and
the context-manager exit hook invokes close on it for every value of the
exception information — so every exit path, normal or exceptional, releases
the handle exactly once. -/
theorem transport_handle_closed_on_every_exit_path :
    (∀ (bu : String) (ak : Option String) (ti mr : Nat) (vs : Bool),
       (atlas_client_init bu ak ti mr vs).client.closeCalls = 0 ∧
       (async_client_init bu ak ti mr vs).client.closeCalls = 0) ∧
    (∀ (s : AtlasDNSClientState) (et ev tb : Option String),
       exitHook s et ev tb = close s ∧
       (exitHook s et ev tb).client.closeCalls = s.client.closeCalls + 1) ∧
    (∀ (s : AsyncAtlasDNSClientState) (et ev tb : Option String),
       aexitHook s et ev tb = aclose s ∧
       (aexitHook s et ev tb).client.closeCalls = s.client.closeCalls + 1) :=
  ⟨fun _ _ _ _ _ => ⟨rfl, rfl⟩, fun _ _ _ _ => ⟨rfl, rfl⟩, fun _ _ _ _ => ⟨rfl, rfl⟩⟩

/-- C9: every API operation of the facade leaves the client state — the
configuration fields fixed at construction and the header mapping derived from
them — unchanged, for every transport behavior (success or failure alike): in
explicit-state form, each method returns the instance state it was given. -/
theorem operations_preserve_client_config :
    ∀ (s : AtlasDNSClientState) (sa : AsyncAtlasDNSClientState)
      (t : Nat → AttemptResult Response) (a b : String)
      (ps : List (String × String)) (j : Json) (za : ZoneArg) (ma : ModelArg)
      (rs : List ModelArg) (pj : List (String × Json)),
      (list_zones s t ps).1 = s ∧
      (get_zone s t a).1 = s ∧
      (create_zone s t za).1 = s ∧
      (update_zone s t a j).1 = s ∧
      (delete_zone s t a).1 = s ∧
      (validate_zone s t a).1 = s ∧
      (list_records s t a ps).1 = s ∧
      (get_record s t a b).1 = s ∧
      (create_record s t a ma).1 = s ∧
      (update_record s t a b j).1 = s ∧
      (delete_record s t a b).1 = s ∧
      (bulk_create_records s t a rs).1 = s ∧
      (execute_bulk_operation s t ma).1 = s ∧
      (list_health_checks s t ps).1 = s ∧
      (get_health_check s t a).1 = s ∧
      (create_health_check s t ma).1 = s ∧
      (update_health_check s t a j).1 = s ∧
      (delete_health_check s t a).1 = s ∧
      (test_health_check s t a).1 = s ∧
      (list_traffic_policies s t ps).1 = s ∧
      (get_traffic_policy s t a).1 = s ∧
      (create_traffic_policy s t ma).1 = s ∧
      (update_traffic_policy s t a j).1 = s ∧
      (delete_traffic_policy s t a).1 = s ∧
      (simulate_traffic_policy s t a j).1 = s ∧
      (list_geodns_rules s t ps).1 = s ∧
      (get_geodns_rule s t a).1 = s ∧
      (create_geodns_rule s t ma).1 = s ∧
      (update_geodns_rule s t a j).1 = s ∧
      (delete_geodns_rule s t a).1 = s ∧
      (get_geodns_regions s t).1 = s ∧
      (get_dnssec_status s t a).1 = s ∧
      (enable_dnssec s t a j).1 = s ∧
      (disable_dnssec s t a).1 = s ∧
      (rotate_dnssec_keys s t a).1 = s ∧
      (get_analytics_overview s t ps).1 = s ∧
      (get_query_analytics s t ps).1 = s ∧
      (get_performance_metrics s t ps).1 = s ∧
      (get_geographic_analytics s t ps).1 = s ∧
      (get_top_domains s t ps).1 = s ∧
      (query_dns s t a b pj).1 = s ∧
      (get_system_status s t).1 = s ∧
      (get_metrics s t ps).1 = s ∧
      (list_webhooks s t ps).1 = s ∧
      (get_webhook s t a).1 = s ∧
      (create_webhook s t ma).1 = s ∧
      (update_webhook s t a j).1 = s ∧
      (delete_webhook s t a).1 = s ∧
      (test_webhook s t a).1 = s ∧
      (async_list_zones sa t ps).1 = sa ∧
      (async_get_zone sa t a).1 = sa ∧
      (async_create_zone sa t za).1 = sa ∧
      (async_update_zone sa t a j).1 = sa ∧
      (async_delete_zone sa t a).1 = sa :=
  fun _ _ _ _ _ _ _ _ _ _ _ =>
    ⟨rfl, rfl, rfl, rfl, rfl, rfl, rfl, rfl, rfl, rfl,
     rfl, rfl, rfl, rfl, rfl, rfl, rfl, rfl, rfl, rfl,
     rfl, rfl, rfl, rfl, rfl, rfl, rfl, rfl, rfl, rfl,
     rfl, rfl, rfl, rfl, rfl, rfl, rfl, rfl, rfl, rfl,
     rfl, rfl, rfl, rfl, rfl, rfl, rfl, rfl, rfl, rfl,
     rfl, rfl, rfl, rfl⟩

/-- C10: the header mapping built at construction contains X-API-Key exactly
when the api_key argument is a non-empty string, carrying the token verbatim,
and both clients hand this very mapping to the transport handle that sends
every request. -/
theorem api_key_header_iff_nonempty :
    ∀ (bu : String) (ak : Option String) (ti mr : Nat) (vs : Bool) (k : String),
      (List.lookup "X-API-Key" (base_client_init bu ak ti mr vs).headers = some k ↔
        ak = some k ∧ k ≠ "") ∧
      (atlas_client_init bu ak ti mr vs).client.headers
        = (base_client_init bu ak ti mr vs).headers ∧
      (async_client_init bu ak ti mr vs).client.headers
        = (base_client_init bu ak ti mr vs).headers := by
  intro bu ak ti mr vs k
  refine ⟨?_, rfl, rfl⟩
  cases ak with
  | none =>
    have hnone : List.lookup "X-API-Key" (base_client_init bu none ti mr vs).headers
        = none := rfl
    rw [hnone]
    simp
  | some ka =>
    by_cases hk : ka = ""
    · subst hk
      have hnone : List.lookup "X-API-Key" (base_client_init bu (some "") ti mr vs).headers
          = none := rfl
      rw [hnone]
      constructor
      · intro h
        exact Option.noConfusion h
      · rintro ⟨he, hne⟩
        injection he with he2
        exact absurd he2.symm hne
    · have hb : (ka != "") = true := bne_iff_ne.mpr hk
      have hhead : (base_client_init bu (some ka) ti mr vs).headers
          = [("Content-Type", "application/json"),
             ("User-Agent", "atlas-dns-python-sdk/1.0.0"), ("X-API-Key", ka)] := by
        simp [base_client_init, hb]
      rw [hhead]
      have hlook : List.lookup "X-API-Key"
          [("Content-Type", "application/json"),
           ("User-Agent", "atlas-dns-python-sdk/1.0.0"), ("X-API-Key", ka)] = some ka := rfl
      rw [hlook]
      constructor
      · intro h
        refine ⟨h, ?_⟩
        injection h with h2
        rw [← h2]
        exact hk
      · rintro ⟨h, _⟩
        exact h

/-- C10 witness: a client constructed with the token "token-1" carries
X-API-Key token-1, and one constructed with no token carries no X-API-Key. -/
theorem api_key_header_iff_nonempty_check :
    List.lookup "X-API-Key"
      (base_client_init DEFAULT_BASE_URL (some "token-1") DEFAULT_TIMEOUT
        DEFAULT_MAX_RETRIES DEFAULT_VERIFY_SSL).headers = some "token-1" ∧
    ¬ List.lookup "X-API-Key"
      (base_client_init DEFAULT_BASE_URL none DEFAULT_TIMEOUT
        DEFAULT_MAX_RETRIES DEFAULT_VERIFY_SSL).headers = some "" :=
  ⟨(api_key_header_iff_nonempty DEFAULT_BASE_URL (some "token-1") DEFAULT_TIMEOUT
      DEFAULT_MAX_RETRIES DEFAULT_VERIFY_SSL "token-1").1.mpr ⟨rfl, by decide⟩,
   fun h => by
    have := (api_key_header_iff_nonempty DEFAULT_BASE_URL none DEFAULT_TIMEOUT
      DEFAULT_MAX_RETRIES DEFAULT_VERIFY_SSL "").1.mp h
    exact this.2 rfl⟩

end AtlasDNS
